import Mathlib

/-!
Verification of the star-schema harmonization and classification core of the
food-recalls pipeline (`src/pipeline/transform_to_star_schema.py`).

The Python functions are shallowly embedded: pandas cells become
`Option String` (`none` = NaN), Python dicts that only grow become
insertion-ordered association lists, Python text operations are modelled on
the character list of a `String` (ASCII semantics, which covers the data the
pipeline handles), and the one raising code path (an out-of-range index in
`harmonize_country_name`) becomes `Except Unit`.
-/

namespace FoodRecalls

/-! ## Text primitives (models of the Python string operations used) -/

/-- True when the character list `p` is an initial segment of `t`. -/
def leadsWith : List Char → List Char → Bool
  | [], _ => true
  | _ :: _, [] => false
  | p :: ps, c :: cs => p == c && leadsWith ps cs

/-- True when `p` occurs contiguously inside `t` (the model of Python's
`p in t` on the underlying characters). -/
def subList (p : List Char) : List Char → Bool
  | [] => p.isEmpty
  | c :: cs => leadsWith p (c :: cs) || subList p cs

/-- Model of Python `pat in t` for strings (an empty pattern always occurs). -/
def hasSub (t pat : String) : Bool :=
  subList pat.data t.data

/-- Model of Python `str.lower()` (ASCII). -/
def lowerS (s : String) : String := ⟨s.data.map Char.toLower⟩

/-- Model of Python `str.upper()` (ASCII). -/
def upperS (s : String) : String := ⟨s.data.map Char.toUpper⟩

/-- Python whitespace stripped by `str.strip()`. -/
def isPyWs (c : Char) : Bool :=
  c == ' ' || c == '\t' || c == '\n' || c == '\r' || c == '\x0b' || c == '\x0c'

/-- Model of Python `str.strip()`. -/
def trimS (s : String) : String :=
  ⟨((s.data.dropWhile isPyWs).reverse.dropWhile isPyWs).reverse⟩

/-- Helper for `titleS`: the boolean records whether the previous character
was alphabetic. -/
def titleGo : Bool → List Char → List Char
  | _, [] => []
  | prevAlpha, c :: cs =>
    if c.isAlpha then
      (if prevAlpha then c.toLower else c.toUpper) :: titleGo true cs
    else
      c :: titleGo false cs

/-- Model of Python `str.title()` (ASCII): the first letter of each word is
upper-cased and the following letters lower-cased. -/
def titleS (s : String) : String := ⟨titleGo false s.data⟩

/-- Model of Python `s[:n]` on a string (slices count characters). -/
def pyTake (s : String) (n : Nat) : String := ⟨s.data.take n⟩

/-- Model of `str(cell)` for a pandas cell that is not NaN-guarded:
`str(nan)` is the literal string `nan`. -/
def pyStr (o : Option String) : String :=
  match o with
  | some s => s
  | none => "nan"

/-- True when the first character exists and is upper case
(model of `s[0].isupper()` on a nonempty string). -/
def headUpper (s : String) : Bool :=
  match s.data with
  | [] => false
  | c :: _ => c.isUpper

/-- Model of Python `str.isupper()` (ASCII): some cased character, and no
lower-case character. -/
def pyIsUpper (s : String) : Bool :=
  s.data.any (fun c => c.isUpper || c.isLower) && s.data.all (fun c => !c.isLower)

/-- First-seen-order deduplication, the model of `pandas.unique` /
`drop_duplicates`. -/
def dedupF [BEq α] (l : List α) : List α :=
  l.foldl (fun acc x => if acc.contains x then acc else acc ++ [x]) []

/-- Model of `int(s)` on a string of digits. -/
def natOfDigits (l : List Char) : Nat :=
  l.foldl (fun a c => 10 * a + (c.toNat - 48)) 0

/-- Model of `d.get(k, default)` on a Python dict encoded as an association
list. -/
def lookupD (m : List (String × Nat)) (k : String) (d : Nat) : Nat :=
  (m.lookup k).getD d

/-- Model of the Python dict assignment `d[k] = v`: overwrite in place if the
key exists (keeping its position), otherwise append. -/
def mapSet (m : List (String × Nat)) (k : String) (v : Nat) : List (String × Nat) :=
  match m with
  | [] => [(k, v)]
  | (k0, v0) :: rest => if k0 = k then (k0, v) :: rest else (k0, v0) :: mapSet rest k v

/-! ## Country harmonization (`harmonize_country_name` and its tables) -/

/-- The EU member set used for the geography dimension attributes. -/
def EU_MEMBERS : List String :=
  ["Austria", "Belgium", "Bulgaria", "Croatia", "Cyprus", "Czech Republic", "Czechia",
   "Denmark", "Estonia", "Finland", "France", "Germany", "Greece", "Hungary",
   "Ireland", "Italy", "Latvia", "Lithuania", "Luxembourg", "Malta", "Netherlands",
   "Poland", "Portugal", "Romania", "Slovakia", "Slovenia", "Spain", "Sweden"]

/-- The EFTA state set used for the geography dimension attributes. -/
def EFTA_COUNTRIES : List String :=
  ["Switzerland", "Norway", "Iceland", "Liechtenstein"]

/-- The static upper-cased alias table of `COUNTRY_NAME_MAP`, in source
order. -/
def COUNTRY_NAME_MAP : List (String × String) :=
  [("AUSTRIA", "Austria"), ("BELGIUM", "Belgium"), ("BULGARIA", "Bulgaria"),
   ("CROATIA", "Croatia"), ("CYPRUS", "Cyprus"), ("CZECH REPUBLIC", "Czech Republic"),
   ("CZECHIA", "Czech Republic"), ("DENMARK", "Denmark"), ("ESTONIA", "Estonia"),
   ("FINLAND", "Finland"), ("FRANCE", "France"), ("GERMANY", "Germany"),
   ("GREECE", "Greece"), ("HUNGARY", "Hungary"), ("IRELAND", "Ireland"),
   ("ITALY", "Italy"), ("LATVIA", "Latvia"), ("LITHUANIA", "Lithuania"),
   ("LUXEMBOURG", "Luxembourg"), ("MALTA", "Malta"), ("NETHERLANDS", "Netherlands"),
   ("THE NETHERLANDS", "Netherlands"), ("POLAND", "Poland"), ("PORTUGAL", "Portugal"),
   ("ROMANIA", "Romania"), ("SLOVAKIA", "Slovakia"), ("SLOVENIA", "Slovenia"),
   ("SPAIN", "Spain"), ("SWEDEN", "Sweden"), ("SWITZERLAND", "Switzerland"),
   ("NORWAY", "Norway"), ("ICELAND", "Iceland"), ("TURKEY", "Türkiye"),
   ("TÜRKİYE", "Türkiye"), ("TURKIYE", "Türkiye"), ("UNITED KINGDOM", "United Kingdom"),
   ("CHINA", "China"), ("INDIA", "India"), ("BRAZIL", "Brazil"), ("THAILAND", "Thailand"),
   ("VIETNAM", "Vietnam"), ("VIET NAM", "Vietnam"), ("INDONESIA", "Indonesia"),
   ("EGYPT", "Egypt"), ("MOROCCO", "Morocco"), ("ARGENTINA", "Argentina"),
   ("UNITED STATES", "United States"), ("USA", "United States")]

/-- Embedding of `harmonize_country_name`.  `none` input models `NaN`/`None`;
`Except.error ()` models the `IndexError` the Python code raises at
`country_str[0]` when the input is a truthy string that strips to empty. -/
def harmonize_country_name (country : Option String) : Except Unit (Option String) :=
  match country with
  | none => .ok none
  | some c =>
    if c = "" then .ok none
    else
      let s := trimS c
      match COUNTRY_NAME_MAP.lookup (upperS s) with
      | some v => .ok (some v)
      | none =>
        if s = "" then .error ()
        else if headUpper s && !pyIsUpper s then .ok (some s)
        else .ok (some (titleS s))

end FoodRecalls

namespace FoodRecalls

/-! ## Recall-reason classifier dictionaries (in source insertion order) -/

/-- Biological pathogen keywords (`PATHOGENS`), in dictionary insertion
order. -/
def PATHOGENS : List (String × String) :=
  [("listeria", "Listeria monocytogenes"),
   ("listeria monocytogenes", "Listeria monocytogenes"),
   ("listeriosis", "Listeria monocytogenes"),
   ("l. monocytogenes", "Listeria monocytogenes"),
   ("l.monocytogenes", "Listeria monocytogenes"),
   ("l. mono", "Listeria monocytogenes"),
   ("l.mono", "Listeria monocytogenes"),
   ("salmonella", "Salmonella"),
   ("salmonellosis", "Salmonella"),
   ("s. enteritidis", "Salmonella"),
   ("s. typhimurium", "Salmonella"),
   ("e. coli", "E. coli"),
   ("e.coli", "E. coli"),
   ("escherichia coli", "E. coli"),
   ("coliform", "Coliforms"),
   ("stec", "E. coli (STEC)"),
   ("o157", "E. coli O157:H7"),
   ("o157:h7", "E. coli O157:H7"),
   ("clostridium botulinum", "Clostridium botulinum"),
   ("c. botulinum", "Clostridium botulinum"),
   ("botulism", "Clostridium botulinum"),
   ("botulinum", "Clostridium botulinum"),
   ("campylobacter", "Campylobacter"),
   ("staphylococcus", "Staphylococcus aureus"),
   ("s. aureus", "Staphylococcus aureus"),
   ("bacillus cereus", "Bacillus cereus"),
   ("b. cereus", "Bacillus cereus"),
   ("cronobacter", "Cronobacter"),
   ("shigella", "Shigella"),
   ("vibrio", "Vibrio"),
   ("yersinia", "Yersinia"),
   ("clostridium perfringens", "Clostridium perfringens"),
   ("c. perfringens", "Clostridium perfringens"),
   ("hepatitis a", "Hepatitis A"),
   ("hepatitis", "Hepatitis A"),
   ("norovirus", "Norovirus"),
   ("cyclospora", "Cyclospora"),
   ("cryptosporidium", "Cryptosporidium"),
   ("trichinella", "Trichinella"),
   ("anisakis", "Anisakis"),
   ("aflatoxin", "Aflatoxin (Mold)"),
   ("mycotoxin", "Mycotoxin (Mold)"),
   ("ochratoxin", "Ochratoxin (Mold)"),
   ("patulin", "Patulin (Mold)"),
   ("mold", "Mold"),
   ("mould", "Mold")]

/-- Allergen keywords (`ALLERGENS`), in dictionary insertion order. -/
def ALLERGENS : List (String × String) :=
  [("milk", "Milk"), ("dairy", "Milk"), ("lactose", "Milk"), ("casein", "Milk"),
   ("whey", "Milk"), ("cream", "Milk"), ("butter", "Milk"), ("cheese", "Milk"),
   ("egg", "Eggs"), ("eggs", "Eggs"), ("albumin", "Eggs"), ("ovalbumin", "Eggs"),
   ("wheat", "Wheat"), ("gluten", "Wheat/Gluten"), ("barley", "Wheat/Gluten"),
   ("rye", "Wheat/Gluten"), ("oats", "Wheat/Gluten"),
   ("peanut", "Peanuts"), ("peanut protein", "Peanuts"), ("peanuts", "Peanuts"),
   ("tree nut", "Tree Nuts"), ("tree nuts", "Tree Nuts"),
   ("almond", "Tree Nuts (Almond)"), ("almonds", "Tree Nuts (Almond)"),
   ("walnut", "Tree Nuts (Walnut)"), ("walnuts", "Tree Nuts (Walnut)"),
   ("cashew", "Tree Nuts (Cashew)"), ("cashews", "Tree Nuts (Cashew)"),
   ("pistachio", "Tree Nuts (Pistachio)"), ("pistachios", "Tree Nuts (Pistachio)"),
   ("pecan", "Tree Nuts (Pecan)"), ("pecans", "Tree Nuts (Pecan)"),
   ("hazelnut", "Tree Nuts (Hazelnut)"), ("hazelnuts", "Tree Nuts (Hazelnut)"),
   ("macadamia", "Tree Nuts (Macadamia)"), ("brazil nut", "Tree Nuts (Brazil Nut)"),
   ("soy", "Soy"), ("soya", "Soy"), ("soybean", "Soy"), ("soybeans", "Soy"),
   ("fish", "Fish"), ("anchovy", "Fish"), ("anchovies", "Fish"),
   ("cod", "Fish"), ("salmon", "Fish"), ("tuna", "Fish"),
   ("shellfish", "Shellfish"), ("crustacean", "Shellfish"), ("shrimp", "Shellfish"),
   ("crab", "Shellfish"), ("lobster", "Shellfish"), ("prawn", "Shellfish"),
   ("mollusc", "Molluscs"), ("mollusk", "Molluscs"), ("clam", "Molluscs"),
   ("mussel", "Molluscs"), ("oyster", "Molluscs"), ("squid", "Molluscs"),
   ("sesame", "Sesame"),
   ("celery", "Celery"), ("mustard", "Mustard"), ("lupin", "Lupin"),
   ("sulphite", "Sulphites"), ("sulfite", "Sulphites"), ("sulphur dioxide", "Sulphites"),
   ("lactoprotein", "Milk"),
   ("(allergens)", "Allergens - Other"),
   ("nuts (allergens)", "Tree Nuts")]

/-- Chemical contaminant keywords (`CHEMICALS`), in dictionary insertion
order. -/
def CHEMICALS : List (String × String) :=
  [("lead", "Lead"), ("mercury", "Mercury"), ("cadmium", "Cadmium"),
   ("arsenic", "Arsenic"),
   ("pesticide", "Pesticides"), ("herbicide", "Pesticides"),
   ("insecticide", "Pesticides"), ("chlorpyrifos", "Pesticides"),
   ("dieldrin", "Pesticides"), ("glyphosate", "Pesticides"),
   ("melamine", "Melamine"), ("ethylene oxide", "Ethylene Oxide"),
   ("dioxin", "Dioxins"), ("pcb", "PCBs"), ("polychlorinated", "PCBs"),
   ("pah", "PAHs"), ("benzo[a]pyrene", "PAHs"), ("benzo(a)pyrene", "PAHs"),
   ("polycyclic aromatic", "PAHs"),
   ("acrylamide", "Acrylamide"), ("benzene", "Benzene"),
   ("veterinary drug", "Veterinary Drugs"), ("veterinary medicinal", "Veterinary Drugs"),
   ("antibiotic", "Antibiotics"), ("chloramphenicol", "Antibiotics"),
   ("nitrofuran", "Antibiotics"), ("beta lactam", "Antibiotics"),
   ("beta-lactam", "Antibiotics"),
   ("leucomalachite", "Veterinary Drugs"), ("malachite green", "Veterinary Drugs"),
   ("clenbuterol", "Veterinary Drugs"),
   ("histamine", "Histamine"), ("scombroid", "Histamine"),
   ("(migration)", "Migration (Packaging)"), ("migration", "Migration (Packaging)"),
   ("phthalate", "Phthalates (Migration)"), ("dinch", "DINCH (Migration)"),
   ("esbo", "ESBO (Migration)"), ("epoxidised soybean oil", "ESBO (Migration)"),
   ("dotp", "DOTP (Migration)"),
   ("primary aromatic amines", "Aromatic Amines (Migration)"),
   ("environmental pollutant", "Environmental Pollutants"),
   ("(environmental pollutants)", "Environmental Pollutants"),
   ("pyrrolizidine", "Pyrrolizidine Alkaloids"), ("alkaloid", "Plant Alkaloids"),
   ("natural toxin", "Natural Toxins"), ("(natural toxins)", "Natural Toxins"),
   ("tropane", "Tropane Alkaloids"), ("cyanide", "Cyanide"),
   ("glycoalkaloid", "Glycoalkaloids"), ("solanine", "Glycoalkaloids"),
   ("sildenafil", "Undeclared Drugs"), ("tadalafil", "Undeclared Drugs"),
   ("anabolic steroid", "Undeclared Drugs"), ("steroid", "Undeclared Drugs"),
   ("picamilon", "Undeclared Drugs"), ("hidden drug", "Undeclared Drugs"),
   ("drug ingredient", "Undeclared Drugs"),
   ("unapproved ingredient", "Unauthorised Substances"),
   ("unauthorised substance", "Unauthorised Substances"),
   ("unauthorised", "Unauthorised Substances"),
   ("cyclamate", "Unauthorised Substances"), ("kratom", "Unauthorised Substances"),
   ("dmha", "Unauthorised Substances"), ("dmaa", "Unauthorised Substances"),
   ("dimethylamylamine", "Unauthorised Substances"),
   ("hordenine", "Unauthorised Substances"),
   ("oleander", "Toxic Plants"), ("toxic", "Toxic Substances"),
   ("poisonous", "Toxic Substances"),
   ("cleaning solution", "Cleaning Chemicals"), ("cleaning agent", "Cleaning Chemicals"),
   ("3-mcpd", "3-MCPD"), ("monochlor", "3-MCPD"), ("glycidyl", "Glycidyl Esters"),
   ("(industrial contaminants)", "Industrial Contaminants"),
   ("(process contaminants)", "Process Contaminants"),
   ("thc", "THC (Cannabis)"), ("tetrahydrocanabinol", "THC (Cannabis)"),
   ("cannabidiol", "CBD (Cannabis)"), ("cbd", "CBD (Cannabis)"),
   ("tbhq", "Food Additives Issues"), ("tert-butylhydroquinone", "Food Additives Issues"),
   ("dmps", "Food Additives Issues"), ("dimethyl polysiloxane", "Food Additives Issues"),
   ("excessive amount", "Food Additives Issues")]

/-- Foreign-object keywords (`FOREIGN_OBJECTS`), in dictionary insertion
order. -/
def FOREIGN_OBJECTS : List (String × String) :=
  [("metal", "Metal Fragments"), ("wire", "Metal Fragments"),
   ("glass", "Glass Fragments"),
   ("plastic", "Plastic Pieces"), ("polyethylene", "Plastic Pieces"),
   ("wood", "Wood Pieces"), ("stone", "Stones"), ("rubber", "Rubber Pieces"),
   ("cloth", "Cloth/Fabric"), ("bone", "Bone Fragments"),
   ("insect", "Insects"), ("rodent", "Rodent Contamination"),
   ("pest", "Pest Contamination"), ("hair", "Hair/Foreign Matter"),
   ("human fingertip", "Human Body Parts"),
   ("extraneous", "Foreign Matter"), ("foreign material", "Foreign Matter"),
   ("foreign matter", "Foreign Matter"), ("foreign object", "Foreign Matter"),
   ("foreign body", "Foreign Matter"), ("foreign bodies", "Foreign Matter"),
   ("fragments", "Fragments"), ("physical hazard", "Physical Hazard"),
   ("physical contaminant", "Foreign Matter")]

/-- Process-issue keywords (`PROCESS_ISSUE_KEYWORDS`), in dictionary
insertion order. -/
def PROCESS_ISSUE_KEYWORDS : List (String × String) :=
  [("cgmp", "cGMP Issues"), ("good manufacturing", "cGMP Issues"),
   ("manufacturing practice", "cGMP Issues"), ("under gmp", "cGMP Issues"),
   ("sanitation", "cGMP Issues"), ("sanitary", "cGMP Issues"),
   ("sanitizer", "cGMP Issues"), ("hygienic", "cGMP Issues"),
   ("infestation of mice", "cGMP Issues"), ("insanitary", "cGMP Issues"),
   ("unsanitary", "cGMP Issues"),
   ("haccp", "HACCP Issues"), ("critical control", "HACCP Issues"),
   ("manufacturing defect", "Manufacturing Issues"),
   ("production error", "Manufacturing Issues"),
   ("process deviation", "Manufacturing Issues"),
   ("equipment failure", "Manufacturing Issues"),
   ("cross-contact", "Manufacturing Issues"), ("cross contact", "Manufacturing Issues"),
   ("pasteurization", "Manufacturing Issues"), ("pasteurisation", "Manufacturing Issues"),
   ("mislabel", "Mislabeling"), ("misbranding", "Mislabeling"),
   ("misbrand", "Mislabeling"), ("incorrect label", "Mislabeling"),
   ("wrong label", "Mislabeling"), ("labeling error", "Mislabeling"),
   ("label error", "Mislabeling"), ("packaging error", "Mislabeling"),
   ("wrong package", "Mislabeling"), ("does not contain a listing", "Mislabeling"),
   ("fails to list", "Mislabeling"), ("labels lack", "Mislabeling"),
   ("labeled in english", "Mislabeling"),
   ("not fda approved", "Regulatory Issues"),
   ("temperature abuse", "Refrigeration Issues"), ("cold chain", "Refrigeration Issues"),
   ("refrigeration", "Refrigeration Issues"),
   ("temperature control", "Refrigeration Issues"),
   ("keep refrigerated", "Refrigeration Issues"),
   ("not held at an appropriate temperature", "Refrigeration Issues"),
   ("holding temperature", "Refrigeration Issues"), ("cooler", "Refrigeration Issues"),
   ("underprocess", "Under-Processing"), ("under-process", "Under-Processing"),
   ("undercook", "Under-Processing"), ("under-cook", "Under-Processing"),
   ("insufficient processing", "Under-Processing"),
   ("inadequate processing", "Under-Processing"),
   ("inadequate heat", "Under-Processing"), ("low acid", "Under-Processing"),
   ("swollen", "Under-Processing"), ("bloated", "Under-Processing"),
   ("packaging defective", "Packaging Issues"),
   ("packaging incorrect", "Packaging Issues"),
   ("packaging concern", "Packaging Issues"), ("air space", "Packaging Issues"),
   ("(packaging", "Packaging Issues"),
   ("(composition)", "Composition Issues"), ("composition", "Composition Issues"),
   ("vitamin d", "Composition Issues"),
   ("genetically modified", "GMO Issues"),
   ("novel food", "Novel Food Issues"), ("(novel food)", "Novel Food Issues"),
   ("foodborne outbreak", "Foodborne Outbreak"),
   ("labelling (labelling", "Mislabeling"), ("labelling absent", "Mislabeling"),
   ("labelling incomplete", "Mislabeling"), ("labelling incorrect", "Mislabeling"),
   ("expiry date", "Mislabeling"),
   ("thermal processing", "Under-Processing"),
   ("poor or insufficient controls", "Manufacturing Issues"),
   ("processing defect", "Manufacturing Issues"),
   ("without inspection", "Regulatory Issues"),
   ("import violation", "Regulatory Issues"),
   ("suffocation", "Physical Hazard"), ("choking", "Physical Hazard"),
   ("mouth injury", "Physical Hazard"),
   ("organoleptic", "Quality Issues"), ("acidity", "Quality Issues"),
   ("off-odour", "Quality Issues"), ("off-flavour", "Quality Issues"),
   ("spoilage", "Quality Issues"),
   ("food poisoning", "Foodborne Illness"),
   ("allergic reaction", "Allergic Reaction")]

/-- RASFF hazard-category aliases mapped to Product Contaminant
(`RASFF_PRODUCT_CONTAMINANTS`). -/
def RASFF_PRODUCT_CONTAMINANTS : List (String × String) :=
  [("residues of veterinary", "Veterinary Drug Residues"),
   ("(residues of veterinary", "Veterinary Drug Residues"),
   ("food additives", "Food Additives Issues"),
   ("(food additives", "Food Additives Issues"),
   ("flavouring", "Food Additives Issues"),
   ("rhodamine", "Unauthorised Colors")]

/-! ## The classifier (`classify_recall_reason`) -/

/-- First dictionary entry whose keyword occurs in the (lower-cased) text;
models the `for keyword, value in dict.items()` scans of the classifier. -/
def firstMatch (dict : List (String × String)) (t : String) : Option String :=
  match dict with
  | [] => none
  | (kw, v) :: rest => if hasSub t kw then some v else firstMatch rest t

/-- The `is_undeclared` signal of `classify_recall_reason`. -/
def is_undeclared (t : String) : Bool :=
  hasSub t "undeclared" || hasSub t "not declared" ||
  hasSub t "may contain" || hasSub t "same equipment" ||
  hasSub t "shared equipment" || hasSub t "presence of" ||
  hasSub t "tested positive" || hasSub t "detected"

/-- The `is_labeling_issue` signal of `classify_recall_reason`. -/
def is_labeling_issue (t : String) : Bool :=
  hasSub t "does not declare" || hasSub t "do not declare" ||
  hasSub t "not list" || hasSub t "without an ingredient" ||
  hasSub t "absence of" || hasSub t "did not list" ||
  hasSub t "not on the label" || hasSub t "missing"

/-- The allergen scan of `classify_recall_reason`: a keyword match is
accepted only under the undeclared/labeling/label gate or when `allerg`
occurs; otherwise the loop continues with the next keyword. -/
def allergenLoop (dict : List (String × String)) (t : String) : Option String :=
  match dict with
  | [] => none
  | (kw, a) :: rest =>
    if hasSub t kw then
      if is_undeclared t || is_labeling_issue t || hasSub t "label" then some a
      else if hasSub t "allerg" then some a
      else allergenLoop rest t
    else allergenLoop rest t

/-- Embedding of `classify_recall_reason`: the precedence cascade producing
`(RecallCategory, RecallGroup, RecallSubgroup)`. -/
def classify_recall_reason (reason_text : Option String) : String × String × Option String :=
  match reason_text with
  | none => ("Other", "Other", none)
  | some rt =>
    if rt = "" then ("Other", "Other", none)
    else
      let t := lowerS rt
      match firstMatch PATHOGENS t with
      | some pathogen => ("Product Contaminant", "Biological Contamination", some pathogen)
      | none =>
      match allergenLoop ALLERGENS t with
      | some allergen => ("Product Contaminant", "Allergens", some allergen)
      | none =>
      match firstMatch CHEMICALS t with
      | some chemical => ("Product Contaminant", "Chemical Contamination", some chemical)
      | none =>
      match firstMatch RASFF_PRODUCT_CONTAMINANTS t with
      | some contaminant => ("Product Contaminant", "Chemical Contamination", some contaminant)
      | none =>
      match firstMatch FOREIGN_OBJECTS t with
      | some obj => ("Product Contaminant", "Foreign Objects", some obj)
      | none =>
      if hasSub t "(allergens)" then
        if hasSub t "nuts" then ("Product Contaminant", "Allergens", some "Tree Nuts")
        else if hasSub t "lactoprotein" || hasSub t "milk" then
          ("Product Contaminant", "Allergens", some "Milk")
        else ("Product Contaminant", "Allergens", some "Allergens - Other")
      else if hasSub t "undeclared" &&
              (hasSub t "color" || hasSub t "colour" || hasSub t "dye") then
        ("Product Contaminant", "Undeclared Food Colors", some "Undeclared Food Colors - Other")
      else if hasSub t "fd&c" || hasSub t "artificial color" then
        ("Product Contaminant", "Undeclared Food Colors", some "Undeclared Food Colors - Other")
      else
        match firstMatch PROCESS_ISSUE_KEYWORDS t with
        | some issue => ("Process Issue", issue, some (issue ++ " - Other"))
        | none =>
          if is_undeclared t || is_labeling_issue t then
            ("Product Contaminant", "Allergens", some "Allergens - Other")
          else if hasSub t "pathogen" || hasSub t "bacteria" || hasSub t "microbial" ||
                  hasSub t "microorganism" || hasSub t "contamination" ||
                  hasSub t "contaminated" then
            ("Product Contaminant", "Biological Contamination", some "Biological Contamination - Other")
          else ("Other", "Other", some "Other")

end FoodRecalls

deriving instance DecidableEq for Except

namespace FoodRecalls

/-! ## Date parsing (`parse_date`)

CPython's `strptime` compiles each format directive to a regular expression
(`%Y` is exactly four digits, `%m` is `1[0-2]|0[1-9]|[1-9]`, `%d` is
`3[01]|[12][0-9]|0[1-9]|[1-9]`), matches from the start of the string with
backtracking, requires the match to cover the whole string, and only then
builds the `datetime`, which raises on a calendar-invalid day.  The model
below reproduces that: a structural phase with the same alternative order
and backtracking, followed by a calendar-validity check that does not
backtrack. -/

/-- A calendar date as produced by `datetime.strptime`. -/
structure PyDate where
  year : Nat
  month : Nat
  day : Nat
deriving DecidableEq, Repr

/-- Gregorian leap-year test. -/
def isLeap (y : Nat) : Bool :=
  (y % 4 == 0 && y % 100 != 0) || y % 400 == 0

/-- Days in a month of the Gregorian calendar. -/
def daysInMonth (y m : Nat) : Nat :=
  if m = 2 then (if isLeap y then 29 else 28)
  else if m = 4 ∨ m = 6 ∨ m = 9 ∨ m = 11 then 30
  else 31

/-- The `datetime` constructor validity check (month range is already
guaranteed by the structural phase; `MINYEAR` is 1). -/
def mkDate (y m d : Nat) : Option PyDate :=
  if 1 ≤ y ∧ 1 ≤ d ∧ d ≤ daysInMonth y m then some ⟨y, m, d⟩ else none

/-- Numeric value of two digit characters. -/
def digit2 (c1 c2 : Char) : Nat :=
  (c1.toNat - 48) * 10 + (c2.toNat - 48)

/-- `%Y`: exactly four digits. -/
def year4 : List Char → Option (Nat × List Char)
  | c1 :: c2 :: c3 :: c4 :: rest =>
    if c1.isDigit && c2.isDigit && c3.isDigit && c4.isDigit then
      some ((digit2 c1 c2) * 100 + digit2 c3 c4, rest)
    else none
  | _ => none

/-- Two-digit alternatives of `%m`: `1[0-2]|0[1-9]`. -/
def month2 : List Char → Option (Nat × List Char)
  | c1 :: c2 :: rest =>
    if c1 = '1' && (c2 = '0' || c2 = '1' || c2 = '2') then some (digit2 c1 c2, rest)
    else if c1 = '0' && c2.isDigit && c2 ≠ '0' then some (c2.toNat - 48, rest)
    else none
  | _ => none

/-- Two-digit alternatives of `%d`: `3[01]|[12][0-9]|0[1-9]`. -/
def day2 : List Char → Option (Nat × List Char)
  | c1 :: c2 :: rest =>
    if c1 = '3' && (c2 = '0' || c2 = '1') then some (digit2 c1 c2, rest)
    else if (c1 = '1' || c1 = '2') && c2.isDigit then some (digit2 c1 c2, rest)
    else if c1 = '0' && c2.isDigit && c2 ≠ '0' then some (c2.toNat - 48, rest)
    else none
  | _ => none

/-- The shared final alternative `[1-9]` of `%m` and `%d`. -/
def oneDigit19 : List Char → Option (Nat × List Char)
  | c :: rest => if c.isDigit && c ≠ '0' then some (c.toNat - 48, rest) else none
  | [] => none

/-- Regex-style alternation with backtracking: try the two-digit
alternatives first, and fall back to the one-digit alternative when the
continuation fails. -/
def tryAlts (alt2 alt1 : List Char → Option (Nat × List Char)) (cs : List Char)
    (k : Nat → List Char → Option α) : Option α :=
  (match alt2 cs with
   | some (v, r) => k v r
   | none => none).orElse (fun _ =>
  match alt1 cs with
  | some (v, r) => k v r
  | none => none)

/-- A literal separator character in a format. -/
def litChar (ch : Char) : List Char → Option (List Char)
  | c :: rest => if c = ch then some rest else none
  | [] => none

/-- Structural phase of `%Y%m%d`. -/
def fmtYmd (cs : List Char) : Option (Nat × Nat × Nat) :=
  match year4 cs with
  | none => none
  | some (y, r1) =>
    tryAlts month2 oneDigit19 r1 (fun m r2 =>
      tryAlts day2 oneDigit19 r2 (fun d r3 =>
        if r3.isEmpty then some (y, m, d) else none))

/-- Structural phase of `%Y-%m-%d`. -/
def fmtYmdDash (cs : List Char) : Option (Nat × Nat × Nat) :=
  match year4 cs with
  | none => none
  | some (y, r1) =>
    match litChar '-' r1 with
    | none => none
    | some r2 =>
      tryAlts month2 oneDigit19 r2 (fun m r3 =>
        match litChar '-' r3 with
        | none => none
        | some r4 =>
          tryAlts day2 oneDigit19 r4 (fun d r5 =>
            if r5.isEmpty then some (y, m, d) else none))

/-- Structural phase of `%m/%d/%Y`. -/
def fmtMdy (cs : List Char) : Option (Nat × Nat × Nat) :=
  tryAlts month2 oneDigit19 cs (fun m r1 =>
    match litChar '/' r1 with
    | none => none
    | some r2 =>
      tryAlts day2 oneDigit19 r2 (fun d r3 =>
        match litChar '/' r3 with
        | none => none
        | some r4 =>
          match year4 r4 with
          | some (y, r5) => if r5.isEmpty then some (y, m, d) else none
          | none => none))

/-- Structural phase of `%d/%m/%Y`. -/
def fmtDmy (cs : List Char) : Option (Nat × Nat × Nat) :=
  tryAlts day2 oneDigit19 cs (fun d r1 =>
    match litChar '/' r1 with
    | none => none
    | some r2 =>
      tryAlts month2 oneDigit19 r2 (fun m r3 =>
        match litChar '/' r3 with
        | none => none
        | some r4 =>
          match year4 r4 with
          | some (y, r5) => if r5.isEmpty then some (y, m, d) else none
          | none => none))

/-- One `strptime` attempt: structural match, then calendar validation. -/
def runFmt (p : List Char → Option (Nat × Nat × Nat)) (cs : List Char) : Option PyDate :=
  match p cs with
  | some (y, m, d) => mkDate y m d
  | none => none

/-- Embedding of `parse_date`: the four formats are tried in source order on
the first ten characters, the first success wins, and total failure yields
`none`. -/
def parse_date (date_val : Option String) : Option PyDate :=
  match date_val with
  | none => none
  | some s =>
    let cs := s.data.take 10
    match runFmt fmtYmd cs with
    | some d => some d
    | none =>
    match runFmt fmtYmdDash cs with
    | some d => some d
    | none =>
    match runFmt fmtMdy cs with
    | some d => some d
    | none => runFmt fmtDmy cs

/-- The integer `int(d.strftime("%Y%m%d"))` used for `DateKey`. -/
def dateKeyOf (d : PyDate) : Nat :=
  d.year * 10000 + d.month * 100 + d.day

end FoodRecalls

namespace FoodRecalls

/-! ## Dimension-builder core

Each `create_dim_*` function keeps a Python dict from natural key to
surrogate key, a running key counter starting at 1, and a list of emitted
dimension rows.  The dict is modelled as an insertion-ordered association
list. -/

/-- The state of one dimension build: key map, next surrogate key, emitted
rows. -/
structure DimBuild (ρ : Type) where
  map : List (String × Nat)
  next : Nat
  rows : List ρ
deriving DecidableEq, Repr

/-- The empty dimension state (`key = 1`, empty dict, no rows). -/
def dimInit (ρ : Type) : DimBuild ρ := ⟨[], 1, []⟩

/-- The guarded insert shared by all dimension passes: `if key not in map`,
register the key at the next surrogate key, append one row built from that
key, and advance the counter; otherwise do nothing. -/
def addIfNew (b : DimBuild ρ) (key : String) (mk : Nat → ρ) : DimBuild ρ :=
  if (b.map.lookup key).isSome then b
  else { map := b.map ++ [(key, b.next)], next := b.next + 1, rows := b.rows ++ [mk b.next] }

/-! ## Geography dimension (`create_dim_geography`) -/

/-- One row of `dim_geography`. -/
structure GeoRow where
  GeographyKey : Nat
  Country : String
  CountryCode : Option String
  State : Option String
  Region : String
  IsEUMember : Bool
  IsEFTA : Bool
deriving DecidableEq, Repr

/-- Region attribute for a non-US country (UK, then EU, then EFTA, then
Other). -/
def regionOf (c : String) : String :=
  if c = "United Kingdom" then "UK"
  else if EU_MEMBERS.contains c then "EU"
  else if EFTA_COUNTRIES.contains c then "EFTA"
  else "Other"

/-- One FDA state in the first geography pass: key `USA|<state>`. -/
def fdaStateStep (b : DimBuild GeoRow) (st : String) : DimBuild GeoRow :=
  addIfNew b ("USA|" ++ st) (fun n =>
    { GeographyKey := n, Country := "United States", CountryCode := some "USA",
      State := some st, Region := "USA", IsEUMember := false, IsEFTA := false })

/-- One RASFF country in the geography pass over the notifying/origin
country set: blank, literal `None` and comma-separated entries are
skipped. -/
def rasffCountryStep (b : DimBuild GeoRow) (c : String) : DimBuild GeoRow :=
  if c = "" || c = "None" then b
  else if hasSub c "," then b
  else addIfNew b c (fun n =>
    { GeographyKey := n, Country := c, CountryCode := none, State := none,
      Region := regionOf c, IsEUMember := EU_MEMBERS.contains c,
      IsEFTA := EFTA_COUNTRIES.contains c })

/-- The RASFF country pass of `create_dim_geography`; its argument order is
the iteration order of the Python `set` of countries, which the interpreter
does not derive from the input data. -/
def rasffGeoPass (b : DimBuild GeoRow) (countries : List String) : DimBuild GeoRow :=
  countries.foldl rasffCountryStep b

/-- One harmonized FDA origin country in the last geography pass; the
harmonizer can raise, and `United States` and comma-separated values are
skipped. -/
def fdaCountryStep (b : DimBuild GeoRow) (c : String) : Except Unit (DimBuild GeoRow) :=
  match harmonize_country_name (some c) with
  | .error u => .error u
  | .ok none => .ok b
  | .ok (some clean) =>
    if clean = "" then .ok b
    else if (b.map.lookup clean).isSome then .ok b
    else if hasSub clean "," then .ok b
    else if clean = "United States" then .ok b
    else .ok (addIfNew b clean (fun n =>
      { GeographyKey := n, Country := clean, CountryCode := none, State := none,
        Region := regionOf clean, IsEUMember := EU_MEMBERS.contains clean,
        IsEFTA := EFTA_COUNTRIES.contains clean }))

/-- The `USA|` default entry for records without a state. -/
def usaDefaultAdd (b : DimBuild GeoRow) : DimBuild GeoRow :=
  addIfNew b "USA|" (fun n =>
    { GeographyKey := n, Country := "United States", CountryCode := some "USA",
      State := none, Region := "USA", IsEUMember := false, IsEFTA := false })

/-- The UK FSA geography entry, added only when the UK dataset is
present. -/
def ukGeoAdd (b : DimBuild GeoRow) (uk_present : Bool) : DimBuild GeoRow :=
  if uk_present then
    addIfNew b "United Kingdom" (fun n =>
      { GeographyKey := n, Country := "United Kingdom", CountryCode := some "GBR",
        State := none, Region := "UK", IsEUMember := false, IsEFTA := false })
  else b

/-- Embedding of `create_dim_geography`: FDA states, the `USA|` default,
the RASFF country set (in its given iteration order), the UK entry, then
harmonized FDA origin countries. -/
def create_dim_geography (fda_state_col : List (Option String))
    (rasff_countries : List String) (uk_present : Bool)
    (fda_country_col : List (Option String)) : Except Unit (DimBuild GeoRow) :=
  (dedupF (fda_country_col.filterMap id)).foldlM fdaCountryStep
    (ukGeoAdd
      (rasffGeoPass
        (usaDefaultAdd ((dedupF (fda_state_col.filterMap id)).foldl fdaStateStep (dimInit GeoRow)))
        rasff_countries)
      uk_present)

/-- Rows of a geography build result (`[]` when the run raised). -/
def geoRowsOf (e : Except Unit (DimBuild GeoRow)) : List GeoRow :=
  match e with
  | .ok b => b.rows
  | .error _ => []

/-- Key map of a geography build result (`[]` when the run raised). -/
def geoMapOf (e : Except Unit (DimBuild GeoRow)) : List (String × Nat) :=
  match e with
  | .ok b => b.map
  | .error _ => []

end FoodRecalls

namespace FoodRecalls

/-! ## Classification dimension (`create_dim_classification`) -/

/-- One row of `dim_classification`. -/
structure ClassRow where
  ClassificationKey : Nat
  Source : String
  OriginalClassification : String
  USAClassLevel : Option String
  NotificationType : Option String
  RiskDecision : Option String
  SeverityLevel : String
  SeverityScore : Nat
deriving DecidableEq, Repr

/-- The US `severity_map` (`Class I/II/III`). -/
def severity_map : List (String × String × Nat) :=
  [("Class I", ("High", 10)), ("Class II", ("Medium", 5)), ("Class III", ("Low", 2))]

/-- The RASFF `rasff_severity_map`: risk decision to severity. -/
def rasff_severity_map : List (String × String × Nat) :=
  [("serious", ("High", 10)), ("potentially serious", ("High", 8)),
   ("potential risk", ("Medium", 5)), ("not serious", ("Low", 2)),
   ("undecided", ("Unknown", 0)), ("not determined", ("Unknown", 0))]

/-- The RASFF `rasff_notification_severity_map` fallback table, in source
insertion order (new 2021+ labels first, then the pre-2021 labels). -/
def rasff_notification_severity_map : List (String × String × Nat) :=
  [("alert notification", ("High", 9)),
   ("border rejection notification", ("Medium", 6)),
   ("information notification for attention", ("Medium", 5)),
   ("information notification for follow-up", ("Medium", 4)),
   ("non-compliance notification", ("Medium", 5)),
   ("alert", ("High", 9)),
   ("border rejection", ("Medium", 6)),
   ("information for attention", ("Medium", 5)),
   ("information for follow-up", ("Medium", 4)),
   ("information", ("Low", 3)),
   ("news", ("Low", 2))]

/-- The UK FSA `uk_severity_map`. -/
def uk_severity_map : List (String × String × Nat) :=
  [("Allergy Alert", ("High", 8)), ("Product Recall", ("High", 9)),
   ("Food Alert For Action", ("High", 10)), ("Alert", ("Medium", 5))]

/-- One FDA classification: key `FDA|<class>` with US severity. -/
def fdaClassStep (b : DimBuild ClassRow) (cls : String) : DimBuild ClassRow :=
  addIfNew b ("FDA|" ++ cls) (fun n =>
    let sv := (severity_map.lookup cls).getD ("Unknown", 0)
    { ClassificationKey := n, Source := "FDA", OriginalClassification := cls,
      USAClassLevel := some cls, NotificationType := none, RiskDecision := none,
      SeverityLevel := sv.1, SeverityScore := sv.2 })

/-- FSIS class formatting: an all-digit class `n ≤ 3` becomes
`Class I/II/III`.  Python evaluates `["I","II","III"][n-1]`, so the digit
`0` wraps to index `-1`, that is `III`. -/
def fsisFormatClass (cls : String) : String :=
  if cls ≠ "" ∧ cls.data.all Char.isDigit then
    let n := natOfDigits cls.data
    if n ≤ 3 then
      "Class " ++ (if n = 1 then "I" else if n = 2 then "II" else "III")
    else cls
  else cls

/-- One FSIS classification: key `FSIS|<class>` with the formatted class
level. -/
def fsisClassStep (b : DimBuild ClassRow) (cls : String) : DimBuild ClassRow :=
  addIfNew b ("FSIS|" ++ cls) (fun n =>
    let cf := fsisFormatClass cls
    let sv := (severity_map.lookup cf).getD ("Unknown", 0)
    { ClassificationKey := n, Source := "FSIS", OriginalClassification := cls,
      USAClassLevel := some cf, NotificationType := none, RiskDecision := none,
      SeverityLevel := sv.1, SeverityScore := sv.2 })

/-- The partial-match fallback loop over
`rasff_notification_severity_map.items()`.  The Python loop header
`for key, value in ...` rebinds the enclosing variable `key`, which until
then held the composite natural key: on a hit the composite is replaced by
the table keyword, and even when the scan falls through without a hit the
variable ends up holding the last table keyword.  The returned string is
the final value of `key`. -/
def scanShadow : List (String × String × Nat) → String → String → (String × Nat) →
    String × (String × Nat)
  | [], _, keyVar, sev => (keyVar, sev)
  | (k, v) :: rest, notifLower, _, sev =>
    if hasSub notifLower k || hasSub k notifLower then (k, v)
    else scanShadow rest notifLower k sev

/-- One RASFF (notification type, risk decision) combination.  The guard
tests the composite `RASFF|<type>|<risk>`, but the key actually written to
the dict is whatever the (possibly shadowed) `key` variable holds after the
severity fallback. -/
def rasffClassStep (b : DimBuild ClassRow) (combo : String × String) : DimBuild ClassRow :=
  let notif := combo.1
  let risk := combo.2
  let composite := "RASFF|" ++ notif ++ "|" ++ risk
  if (b.map.lookup composite).isSome then b
  else
    let riskLower := if risk = "" then "unknown" else lowerS risk
    let sev0 := (rasff_severity_map.lookup riskLower).getD ("Unknown", 0)
    let ks :=
      if sev0.1 = "Unknown" then
        let notifLower := trimS (lowerS notif)
        match rasff_notification_severity_map.lookup notifLower with
        | some v => (composite, v)
        | none => scanShadow rasff_notification_severity_map notifLower composite sev0
      else (composite, sev0)
    let row : ClassRow :=
      { ClassificationKey := b.next, Source := "RASFF",
        OriginalClassification := notif, USAClassLevel := none,
        NotificationType := some notif,
        RiskDecision := if risk = "unknown" then none else some risk,
        SeverityLevel := ks.2.1, SeverityScore := ks.2.2 }
    { map := mapSet b.map ks.1 b.next,
      next := b.next + 1,
      rows := b.rows ++ [row] }

/-- One UK FSA alert type: key `UK_FSA|<alertType>`. -/
def ukClassStep (b : DimBuild ClassRow) (alertType : String) : DimBuild ClassRow :=
  addIfNew b ("UK_FSA|" ++ alertType) (fun n =>
    let sv := (uk_severity_map.lookup alertType).getD ("Medium", 5)
    { ClassificationKey := n, Source := "UK_FSA", OriginalClassification := alertType,
      USAClassLevel := none, NotificationType := some alertType, RiskDecision := none,
      SeverityLevel := sv.1, SeverityScore := sv.2 })

/-- The final `NotificationType` renaming applied to the dimension table
(pre-2021 labels replaced by the 2021+ labels). -/
def notification_type_mapping : List (String × String) :=
  [("alert", "alert notification"),
   ("border rejection", "border rejection notification"),
   ("information for attention", "information notification for attention"),
   ("information for follow-up", "information notification for follow-up")]

/-- Application of `notification_type_mapping` to one cell. -/
def replaceNotif (o : Option String) : Option String :=
  o.map (fun s => (notification_type_mapping.lookup s).getD s)

/-- The final `NotificationType` renaming applied to the emitted
classification table (the key map is unchanged). -/
def finalizeNotif (b : DimBuild ClassRow) : DimBuild ClassRow :=
  { b with rows := b.rows.map (fun r =>
      { r with NotificationType := replaceNotif r.NotificationType }) }

/-- The RASFF combination pass on its own (used to reason about the set
iteration order). -/
def rasffClassPass (b : DimBuild ClassRow) (combos : List (String × String)) :
    DimBuild ClassRow :=
  combos.foldl rasffClassStep b

/-- Embedding of `create_dim_classification`: FDA classes, FSIS classes,
the RASFF combination set (its argument order is the iteration order of the
Python `set` of combinations), UK FSA alert types, and the final
`NotificationType` renaming of the emitted table. -/
def create_dim_classification (fda_class_col : List (Option String))
    (fsis_class_col : List (Option String)) (rasff_combos : List (String × String))
    (uk_alert_col : List (Option String)) : DimBuild ClassRow :=
  finalizeNotif
    ((dedupF (uk_alert_col.filterMap id)).foldl ukClassStep
      (rasffClassPass
        ((dedupF (fsis_class_col.filterMap id)).foldl fsisClassStep
          ((dedupF (fda_class_col.filterMap id)).foldl fdaClassStep (dimInit ClassRow)))
        rasff_combos))

end FoodRecalls

namespace FoodRecalls

/-! ## Product dimension (`create_dim_product`) -/

/-- One row of `dim_product`. -/
structure ProductRow where
  ProductKey : Nat
  ProductName : String
  ProductCategory : Option String
  ProductType : String
deriving DecidableEq, Repr

/-- Embedding of `categorize_product`: keyword chain over the lower-cased
description. -/
def categorize_product (desc : String) : String :=
  if hasSub desc "beef" || hasSub desc "steak" || hasSub desc "burger" ||
     hasSub desc "meat" || hasSub desc "pork" || hasSub desc "chicken" ||
     hasSub desc "poultry" || hasSub desc "turkey" then "Meat/Poultry"
  else if hasSub desc "fish" || hasSub desc "salmon" || hasSub desc "tuna" ||
     hasSub desc "seafood" || hasSub desc "shrimp" || hasSub desc "crab" then "Fish/Seafood"
  else if hasSub desc "milk" || hasSub desc "cheese" || hasSub desc "dairy" ||
     hasSub desc "yogurt" || hasSub desc "butter" || hasSub desc "cream" then "Dairy"
  else if hasSub desc "vegetable" || hasSub desc "lettuce" || hasSub desc "spinach" ||
     hasSub desc "tomato" || hasSub desc "salad" then "Vegetables"
  else if hasSub desc "fruit" || hasSub desc "apple" || hasSub desc "orange" ||
     hasSub desc "berry" || hasSub desc "grape" then "Fruits"
  else if hasSub desc "nut" || hasSub desc "peanut" || hasSub desc "almond" ||
     hasSub desc "cashew" then "Nuts/Seeds"
  else if hasSub desc "bread" || hasSub desc "bakery" || hasSub desc "cookie" ||
     hasSub desc "cake" || hasSub desc "pastry" then "Bakery"
  else if hasSub desc "candy" || hasSub desc "chocolate" || hasSub desc "sweet" then
    "Confectionery"
  else if hasSub desc "spice" || hasSub desc "seasoning" || hasSub desc "herb" then
    "Spices/Seasonings"
  else if hasSub desc "supplement" || hasSub desc "vitamin" || hasSub desc "dietary" then
    "Dietary Supplements"
  else "Other"

/-- The `PRODUCT_TYPE_MAPPING` table, in source insertion order. -/
def PRODUCT_TYPE_MAPPING : List (String × String) :=
  [("fruits and vegetables", "Fresh Produce"),
   ("Fruits", "Fresh Produce"),
   ("Vegetables", "Fresh Produce"),
   ("poultry meat and poultry meat products", "Fresh Protein"),
   ("Meat/Poultry", "Fresh Protein"),
   ("meat and meat products (other than poultry)", "Fresh Protein"),
   ("poultry", "Fresh Protein"),
   ("meat", "Fresh Protein"),
   ("fish and fish products", "Seafood"),
   ("Fish/Seafood", "Seafood"),
   ("fish", "Seafood"),
   ("bivalve molluscs and products thereof", "Seafood"),
   ("crustaceans and products thereof", "Seafood"),
   ("cephalopods and products thereof", "Seafood"),
   ("Dairy", "Dairy"),
   ("milk and milk products", "Dairy"),
   ("cereals and bakery products", "Bakery/Grains"),
   ("Bakery", "Bakery/Grains"),
   ("cereals/bakery", "Bakery/Grains"),
   ("nuts, nut products and seeds", "Nuts/Seeds"),
   ("Nuts/Seeds", "Nuts/Seeds"),
   ("nuts/seeds", "Nuts/Seeds"),
   ("herbs and spices", "Ingredients"),
   ("Spices/Seasonings", "Ingredients"),
   ("herbs/spices", "Ingredients"),
   ("food additives and flavourings", "Ingredients"),
   ("dietetic foods, food supplements and fortified foods", "Supplement"),
   ("dietetic foods, food supplements, fortified foods", "Supplement"),
   ("Dietary Supplements", "Supplement"),
   ("supplements", "Supplement"),
   ("prepared dishes and snacks", "Ready-to-Eat"),
   ("ices and desserts", "Ready-to-Eat"),
   ("confectionery", "Confectionery"),
   ("Confectionery", "Confectionery"),
   ("cocoa and cocoa preparations, coffee and tea", "Confectionery"),
   ("soups, broths, sauces and condiments", "Processed"),
   ("fats and oils", "Processed"),
   ("alcoholic beverages", "Beverage"),
   ("non-alcoholic beverages", "Beverage"),
   ("water for human consumption", "Beverage"),
   ("feed materials", "Animal Feed"),
   ("pet food", "Animal Feed"),
   ("compound feeds", "Animal Feed"),
   ("feed additives", "Animal Feed"),
   ("feed premixtures", "Animal Feed"),
   ("food contact materials", "Non-Food"),
   ("materials and articles intended to come into contact with foodstuffs", "Non-Food")]

/-- First mapping entry whose key lower-cases to the given string (the
second, case-insensitive scan of `get_product_type`). -/
def lookupCaseless (m : List (String × String)) (cl : String) : Option String :=
  match m with
  | [] => none
  | (k, v) :: rest => if lowerS k = cl then some v else lookupCaseless rest cl

/-- Embedding of `get_product_type`: direct match, case-insensitive scan,
then substring heuristics. -/
def get_product_type (category : Option String) : String :=
  match category with
  | none => "Unknown"
  | some c =>
    if c = "" then "Unknown"
    else
      let cl := trimS (lowerS c)
      match PRODUCT_TYPE_MAPPING.lookup cl with
      | some v => v
      | none =>
        match lookupCaseless PRODUCT_TYPE_MAPPING cl with
        | some v => v
        | none =>
          if hasSub cl "meat" || hasSub cl "poultry" then "Fresh Protein"
          else if hasSub cl "fish" || hasSub cl "seafood" then "Seafood"
          else if hasSub cl "dairy" || hasSub cl "milk" then "Dairy"
          else if hasSub cl "vegetable" || hasSub cl "fruit" then "Fresh Produce"
          else if hasSub cl "supplement" || hasSub cl "vitamin" then "Supplement"
          else if hasSub cl "feed" || hasSub cl "pet food" then "Animal Feed"
          else "Other"

/-- One FDA product description: key `FDA|<first 200 chars>`. -/
def fdaProductStep (b : DimBuild ProductRow) (desc : String) : DimBuild ProductRow :=
  addIfNew b ("FDA|" ++ pyTake desc 200) (fun n =>
    let category := categorize_product (lowerS desc)
    { ProductKey := n, ProductName := pyTake desc 500,
      ProductCategory := some category, ProductType := get_product_type (some category) })

/-- One FSIS (product, species) pair: key `FSIS|<product[:200]>`; a NaN
product cell prints as `nan`. -/
def fsisProductStep (b : DimBuild ProductRow) (pr : Option String × Option String) :
    DimBuild ProductRow :=
  let product := pyTake (pyStr pr.1) 200
  let species := match pr.2 with | some s => s | none => ""
  addIfNew b ("FSIS|" ++ product) (fun n =>
    let fsis_category := if species ≠ "" then species else "Meat/Poultry"
    { ProductKey := n, ProductName := pyTake product 500,
      ProductCategory := some fsis_category,
      ProductType := get_product_type (some fsis_category) })

/-- One RASFF (subject, category, product) triple: key
`RASFF|<subject[:200]>`; blank subjects are skipped, and the product name
falls back from the `product` cell to the category to `Unknown Product`. -/
def rasffProductStep (b : DimBuild ProductRow)
    (tr : Option String × Option String × Option String) : DimBuild ProductRow :=
  let subject := match tr.1 with | some s => pyTake s 200 | none => ""
  if subject = "" then b
  else
    addIfNew b ("RASFF|" ++ subject) (fun n =>
      let category := tr.2.1
      let pname :=
        match tr.2.2 with
        | some p => if trimS p ≠ "" then pyTake p 500 else
            (match category with
             | some c => if c ≠ "" then c else "Unknown Product"
             | none => "Unknown Product")
        | none =>
            match category with
            | some c => if c ≠ "" then c else "Unknown Product"
            | none => "Unknown Product"
      { ProductKey := n, ProductName := pname, ProductCategory := category,
        ProductType := get_product_type category })

/-- One UK FSA product name: key `UK_FSA|<name[:200]>`; blank names are
skipped. -/
def ukProductStep (b : DimBuild ProductRow) (nameCell : Option String) :
    DimBuild ProductRow :=
  let pname := match nameCell with | some s => pyTake s 200 | none => ""
  if pname = "" then b
  else
    addIfNew b ("UK_FSA|" ++ pname) (fun n =>
      let category := categorize_product (lowerS pname)
      { ProductKey := n, ProductName := pyTake pname 500,
        ProductCategory := some category,
        ProductType := get_product_type (some category) })

/-- Embedding of `create_dim_product`: FDA descriptions, FSIS
(product, species) pairs, RASFF (subject, category, product) triples, UK
product names. -/
def create_dim_product (fda_desc_col : List (Option String))
    (fsis_pairs : List (Option String × Option String))
    (rasff_triples : List (Option String × Option String × Option String))
    (uk_name_col : List (Option String)) : DimBuild ProductRow :=
  (dedupF uk_name_col).foldl ukProductStep
    ((dedupF rasff_triples).foldl rasffProductStep
      ((dedupF fsis_pairs).foldl fsisProductStep
        ((dedupF (fda_desc_col.filterMap id)).foldl fdaProductStep (dimInit ProductRow))))

/-! ## Company dimension (`create_dim_company`) -/

/-- One row of `dim_company`. -/
structure CompanyRow where
  CompanyKey : Nat
  CompanyName : String
  City : Option String
  State : Option String
  Country : String
  EstablishmentNumber : Option String
deriving DecidableEq, Repr

/-- One FDA (firm, city, state, country) quadruple: the key is the firm
name truncated to 200 characters; blank and `nan` firms are skipped. -/
def fdaCompanyStep (b : DimBuild CompanyRow)
    (q : Option String × Option String × Option String × Option String) :
    DimBuild CompanyRow :=
  let firm := pyTake (pyStr q.1) 200
  if firm = "" || firm = "nan" then b
  else
    addIfNew b firm (fun n =>
      { CompanyKey := n, CompanyName := firm,
        City := q.2.1, State := q.2.2.1,
        Country := match q.2.2.2 with | some c => c | none => "United States",
        EstablishmentNumber := none })

/-- Embedding of `create_dim_company` (FDA recalling firms only). -/
def create_dim_company
    (fda_quads : List (Option String × Option String × Option String × Option String)) :
    DimBuild CompanyRow :=
  (dedupF fda_quads).foldl fdaCompanyStep (dimInit CompanyRow)

end FoodRecalls

namespace FoodRecalls

/-! ## Fact assembly (`create_fact_recalls`) -/

/-- One row of `fact_recalls`. -/
structure FactRow where
  RecallKey : Nat
  RecallID : String
  EventID : Option String
  RecallDate : Option PyDate
  Source : String
  GeographyKey : Nat
  OriginGeographyKey : Option Nat
  ClassificationKey : Nat
  ProductKey : Nat
  CompanyKey : Nat
  DateKey : Option Nat
  ReasonForRecall : Option String
  RecallCategory : String
  RecallGroup : String
  RecallSubgroup : Option String
  DistributionScope : Option String
  ActionTaken : Option String
deriving DecidableEq, Repr

/-- The fields of one raw FDA enforcement record used by the transform. -/
structure FdaRow where
  recall_number : Option String
  event_id : Option String
  recall_initiation_date : Option String
  report_date : Option String
  state : Option String
  country : Option String
  classification : Option String
  product_description : Option String
  recalling_firm : Option String
  reason_for_recall : Option String
  distribution_pattern : Option String
deriving DecidableEq, Repr

/-- Embedding of one iteration of the FDA loop of `create_fact_recalls`.
The recall date falls back from `recall_initiation_date` to `report_date`;
recall geography is `USA|<state>` with fallbacks; origin geography goes
through `harmonize_country_name` (which can raise); unresolvable
classification, product and company keys fall back to 1. -/
def fdaFactRow (geo_map class_map product_map company_map : List (String × Nat))
    (recall_key : Nat) (row : FdaRow) : Except Unit FactRow :=
  let date_val :=
    match parse_date row.recall_initiation_date with
    | some d => some d
    | none => parse_date row.report_date
  let date_key := date_val.map dateKeyOf
  let state := row.state.getD ""
  let geo_key := lookupD geo_map ("USA|" ++ state) (lookupD geo_map "USA|" 1)
  let origin_country := row.country.getD ""
  match (if origin_country = "" then .ok none
         else harmonize_country_name (some origin_country) : Except Unit (Option String)) with
  | .error u => .error u
  | .ok origin_country_clean =>
  let origin_geo_key : Option Nat :=
    if origin_country_clean = some "United States" then some geo_key
    else
      match origin_country_clean with
      | some c => geo_map.lookup c
      | none => none
  let cls := row.classification.getD ""
  let class_key := lookupD class_map ("FDA|" ++ cls) 1
  let desc := pyTake (pyStr row.product_description) 200
  let product_key := lookupD product_map ("FDA|" ++ desc) 1
  let firm := pyTake (pyStr row.recalling_firm) 200
  let company_key := lookupD company_map firm 1
  let reason_text := row.reason_for_recall.map (fun r => pyTake r 500)
  let cls3 := classify_recall_reason reason_text
  .ok
    { RecallKey := recall_key, RecallID := pyStr row.recall_number,
      EventID := row.event_id, RecallDate := date_val, Source := "FDA",
      GeographyKey := geo_key, OriginGeographyKey := origin_geo_key,
      ClassificationKey := class_key, ProductKey := product_key,
      CompanyKey := company_key, DateKey := date_key,
      ReasonForRecall := reason_text, RecallCategory := cls3.1,
      RecallGroup := cls3.2.1, RecallSubgroup := cls3.2.2,
      DistributionScope := row.distribution_pattern.map (fun d => pyTake d 200),
      ActionTaken := none }

/-- The fields of one raw FSIS record used by the transform. -/
structure FsisRow where
  recall_number : Option String
  open_date : Option String
  class_col : Option String
  product : Option String
  problem_type : Option String
deriving DecidableEq, Repr

/-- Embedding of one iteration of the FSIS loop of `create_fact_recalls`:
geography is always `USA|`, there is no origin and no company. -/
def fsisFactRow (geo_map class_map product_map : List (String × Nat))
    (recall_key : Nat) (row : FsisRow) : FactRow :=
  let date_val := parse_date row.open_date
  let date_key := date_val.map dateKeyOf
  let geo_key := lookupD geo_map "USA|" 1
  let cls := row.class_col.getD ""
  let class_key := lookupD class_map ("FSIS|" ++ cls) 1
  let product := pyTake (pyStr row.product) 200
  let product_key := lookupD product_map ("FSIS|" ++ product) 1
  let reason_text := row.problem_type.map (fun r => pyTake r 500)
  let cls3 := classify_recall_reason reason_text
  { RecallKey := recall_key, RecallID := pyStr row.recall_number,
    EventID := some (pyStr row.recall_number), RecallDate := date_val,
    Source := "FSIS", GeographyKey := geo_key, OriginGeographyKey := none,
    ClassificationKey := class_key, ProductKey := product_key,
    CompanyKey := 1, DateKey := date_key, ReasonForRecall := reason_text,
    RecallCategory := cls3.1, RecallGroup := cls3.2.1, RecallSubgroup := cls3.2.2,
    DistributionScope := none, ActionTaken := none }

/-- The fields of one normalized RASFF record used by the transform (the
`date` column was already parsed to a datetime when the source was
loaded). -/
structure RasffRow where
  reference : Option String
  date : Option PyDate
  notifying_country : Option String
  origin : Option String
  classification : Option String
  risk_decision : Option String
  subject : Option String
  substance : Option String
  hazard_category : Option String
  distribution : Option String
  action_taken : Option String
deriving DecidableEq, Repr

/-- Embedding of one iteration of the RASFF loop of `create_fact_recalls`.
The classification key is looked up under the composite
`RASFF|<notificationType>|<riskDecision>` with sentinel fallback 1, and
comma-separated origins are skipped. -/
def rasffFactRow (geo_map class_map product_map : List (String × Nat))
    (recall_key : Nat) (row : RasffRow) : FactRow :=
  let date_key := row.date.map dateKeyOf
  let notifying := row.notifying_country.getD ""
  let geo_key := lookupD geo_map notifying 1
  let origin := row.origin.getD ""
  let origin_geo_key : Option Nat :=
    if hasSub origin "," then none
    else if origin = "" then none
    else geo_map.lookup origin
  let notif_type := row.classification.getD "unknown"
  let risk := row.risk_decision.getD "unknown"
  let class_key := lookupD class_map ("RASFF|" ++ notif_type ++ "|" ++ risk) 1
  let subject := match row.subject with | some s => pyTake s 200 | none => ""
  let product_key := lookupD product_map ("RASFF|" ++ subject) 1
  let substance := row.substance.getD ""
  let hazard_cat := row.hazard_category.getD ""
  let reason := if substance ≠ "" then substance ++ " (" ++ hazard_cat ++ ")" else hazard_cat
  let reason_for_classification := if reason = "" then none else some (pyTake reason 500)
  let cls3 := classify_recall_reason reason_for_classification
  { RecallKey := recall_key, RecallID := pyStr row.reference,
    EventID := some (pyStr row.reference), RecallDate := row.date,
    Source := "RASFF", GeographyKey := geo_key, OriginGeographyKey := origin_geo_key,
    ClassificationKey := class_key, ProductKey := product_key,
    CompanyKey := 1, DateKey := date_key,
    ReasonForRecall := reason_for_classification,
    RecallCategory := cls3.1, RecallGroup := cls3.2.1, RecallSubgroup := cls3.2.2,
    DistributionScope := row.distribution.map (fun d => pyTake d 200),
    ActionTaken := row.action_taken.map (fun a => pyTake a 200) }

/-- The fields of one normalized UK FSA record used by the transform. -/
structure UkRow where
  reference : Option String
  date : Option PyDate
  alert_type : Option String
  product_name : Option String
  risk_statement : Option String
  allergens : Option String
  countries : Option String
deriving DecidableEq, Repr

/-- Embedding of one iteration of the UK FSA loop of `create_fact_recalls`:
geography is always `United Kingdom`, the reason is built from the risk
statement or the allergen list. -/
def ukFactRow (geo_map class_map product_map : List (String × Nat))
    (recall_key : Nat) (row : UkRow) : FactRow :=
  let date_key := row.date.map dateKeyOf
  let geo_key := lookupD geo_map "United Kingdom" 1
  let alert_type := row.alert_type.getD "Alert"
  let class_key := lookupD class_map ("UK_FSA|" ++ alert_type) 1
  let pname := match row.product_name with | some s => pyTake s 200 | none => ""
  let product_key := lookupD product_map ("UK_FSA|" ++ pname) 1
  let risk_stmt := row.risk_statement.getD ""
  let allergenList := row.allergens.getD ""
  let reason :=
    if risk_stmt ≠ "" then risk_stmt
    else if allergenList ≠ "" then "Allergens: " ++ allergenList
    else ""
  let reason_for_classification := if reason = "" then none else some (pyTake reason 500)
  let cls3 := classify_recall_reason reason_for_classification
  { RecallKey := recall_key, RecallID := pyStr row.reference,
    EventID := some (pyStr row.reference), RecallDate := row.date,
    Source := "UK_FSA", GeographyKey := geo_key, OriginGeographyKey := none,
    ClassificationKey := class_key, ProductKey := product_key,
    CompanyKey := 1, DateKey := date_key,
    ReasonForRecall := reason_for_classification,
    RecallCategory := cls3.1, RecallGroup := cls3.2.1, RecallSubgroup := cls3.2.2,
    DistributionScope := some (pyTake (pyStr row.countries) 200),
    ActionTaken := none }

/-- Embedding of `create_fact_recalls`: the four source loops in order, with
one shared `recall_key` counter starting at 1. -/
def create_fact_recalls (fda_rows : List FdaRow) (fsis_rows : List FsisRow)
    (rasff_rows : List RasffRow) (uk_rows : List UkRow)
    (geo_map class_map product_map company_map : List (String × Nat)) :
    Except Unit (List FactRow) := do
  let s1 ← fda_rows.foldlM
    (fun (s : Nat × List FactRow) row => do
      let r ← fdaFactRow geo_map class_map product_map company_map s.1 row
      pure (s.1 + 1, s.2 ++ [r]))
    ((1, []) : Nat × List FactRow)
  let s2 := fsis_rows.foldl
    (fun (s : Nat × List FactRow) row =>
      (s.1 + 1, s.2 ++ [fsisFactRow geo_map class_map product_map s.1 row])) s1
  let s3 := rasff_rows.foldl
    (fun (s : Nat × List FactRow) row =>
      (s.1 + 1, s.2 ++ [rasffFactRow geo_map class_map product_map s.1 row])) s2
  let s4 := uk_rows.foldl
    (fun (s : Nat × List FactRow) row =>
      (s.1 + 1, s.2 ++ [ukFactRow geo_map class_map product_map s.1 row])) s3
  pure s4.2

end FoodRecalls

namespace FoodRecalls

/-! ## Surrogate keys are assigned 1, 2, 3, ... in first-seen order -/

/-- Invariant of a dimension build: the emitted rows carry keys
`1, ..., n` in order and the counter stands at `n + 1`. -/
def keyInv (keyOf : ρ → Nat) (b : DimBuild ρ) : Prop :=
  b.rows.map keyOf = List.range' 1 b.rows.length ∧ b.next = b.rows.length + 1

theorem keyInv_dimInit (keyOf : ρ → Nat) : keyInv keyOf (dimInit ρ) :=
  ⟨rfl, rfl⟩

theorem keyInv_append {keyOf : ρ → Nat} {b : DimBuild ρ} (h : keyInv keyOf b)
    (m' : List (String × Nat)) (r : ρ) (hr : keyOf r = b.next) :
    keyInv keyOf (⟨m', b.next + 1, b.rows ++ [r]⟩ : DimBuild ρ) := by
  obtain ⟨h1, h2⟩ := h
  constructor
  · show (b.rows ++ [r]).map keyOf = List.range' 1 (b.rows ++ [r]).length
    simp [h1, hr, h2, List.range'_concat, Nat.add_comm]
  · show b.next + 1 = (b.rows ++ [r]).length + 1
    simp [h2]

theorem keyInv_addIfNew {keyOf : ρ → Nat} {b : DimBuild ρ} {key : String} {mk : Nat → ρ}
    (h : keyInv keyOf b) (hmk : keyOf (mk b.next) = b.next) :
    keyInv keyOf (addIfNew b key mk) := by
  unfold addIfNew
  split
  · exact h
  · exact keyInv_append h _ _ hmk

theorem keyInv_foldl {keyOf : ρ → Nat} {step : DimBuild ρ → α → DimBuild ρ}
    (hstep : ∀ b x, keyInv keyOf b → keyInv keyOf (step b x)) :
    ∀ (l : List α) (b : DimBuild ρ), keyInv keyOf b → keyInv keyOf (l.foldl step b)
  | [], _, h => h
  | x :: xs, b, h => keyInv_foldl hstep xs (step b x) (hstep b x h)

theorem keyInv_foldlM {keyOf : ρ → Nat} {step : DimBuild ρ → α → Except Unit (DimBuild ρ)}
    (hstep : ∀ b x b', keyInv keyOf b → step b x = .ok b' → keyInv keyOf b') :
    ∀ (l : List α) (b b' : DimBuild ρ), keyInv keyOf b →
      l.foldlM step b = .ok b' → keyInv keyOf b' := by
  intro l
  induction l with
  | nil =>
    intro b b' h heq
    simp only [List.foldlM_nil, pure] at heq
    cases heq
    exact h
  | cons x xs ih =>
    intro b b' h heq
    rw [List.foldlM_cons] at heq
    cases hs : step b x with
    | error u => rw [hs] at heq; simp [Bind.bind, Except.bind] at heq
    | ok b1 =>
      rw [hs] at heq
      simp only [Bind.bind, Except.bind] at heq
      exact ih b1 b' (hstep b x b1 h hs) heq

theorem keyInv_fdaStateStep {b : DimBuild GeoRow} {st : String}
    (h : keyInv GeoRow.GeographyKey b) :
    keyInv GeoRow.GeographyKey (fdaStateStep b st) :=
  keyInv_addIfNew h rfl

theorem keyInv_usaDefaultAdd {b : DimBuild GeoRow}
    (h : keyInv GeoRow.GeographyKey b) :
    keyInv GeoRow.GeographyKey (usaDefaultAdd b) :=
  keyInv_addIfNew h rfl

theorem keyInv_rasffCountryStep {b : DimBuild GeoRow} {c : String}
    (h : keyInv GeoRow.GeographyKey b) :
    keyInv GeoRow.GeographyKey (rasffCountryStep b c) := by
  unfold rasffCountryStep
  split
  · exact h
  · split
    · exact h
    · exact keyInv_addIfNew h rfl

theorem keyInv_rasffGeoPass {b : DimBuild GeoRow} {l : List String}
    (h : keyInv GeoRow.GeographyKey b) :
    keyInv GeoRow.GeographyKey (rasffGeoPass b l) :=
  keyInv_foldl (fun _ _ hb => keyInv_rasffCountryStep hb) l b h

theorem keyInv_ukGeoAdd {b : DimBuild GeoRow} {uk : Bool}
    (h : keyInv GeoRow.GeographyKey b) :
    keyInv GeoRow.GeographyKey (ukGeoAdd b uk) := by
  unfold ukGeoAdd
  split
  · exact keyInv_addIfNew h rfl
  · exact h

theorem keyInv_fdaCountryStep {b b' : DimBuild GeoRow} {c : String}
    (h : keyInv GeoRow.GeographyKey b) (heq : fdaCountryStep b c = .ok b') :
    keyInv GeoRow.GeographyKey b' := by
  unfold fdaCountryStep at heq
  cases hh : harmonize_country_name (some c) with
  | error u => rw [hh] at heq; simp at heq
  | ok oc =>
    rw [hh] at heq
    cases oc with
    | none => simp at heq; cases heq; exact h
    | some clean =>
      simp only at heq
      split at heq
      · cases heq; exact h
      · split at heq
        · cases heq; exact h
        · split at heq
          · cases heq; exact h
          · split at heq
            · cases heq; exact h
            · cases heq; exact keyInv_addIfNew h rfl

theorem keyInv_geo {a : List (Option String)} {rc : List String} {uk : Bool}
    {cc : List (Option String)} {b : DimBuild GeoRow}
    (h : create_dim_geography a rc uk cc = .ok b) :
    keyInv GeoRow.GeographyKey b := by
  unfold create_dim_geography at h
  exact keyInv_foldlM (fun _ _ _ hb he => keyInv_fdaCountryStep hb he) _ _ _
    (keyInv_ukGeoAdd (keyInv_rasffGeoPass (keyInv_usaDefaultAdd
      (keyInv_foldl (fun _ _ hb => keyInv_fdaStateStep hb) _ _ (keyInv_dimInit _))))) h

theorem keyInv_fdaClassStep {b : DimBuild ClassRow} {cls : String}
    (h : keyInv ClassRow.ClassificationKey b) :
    keyInv ClassRow.ClassificationKey (fdaClassStep b cls) :=
  keyInv_addIfNew h rfl

theorem keyInv_fsisClassStep {b : DimBuild ClassRow} {cls : String}
    (h : keyInv ClassRow.ClassificationKey b) :
    keyInv ClassRow.ClassificationKey (fsisClassStep b cls) :=
  keyInv_addIfNew h rfl

theorem keyInv_rasffClassStep {b : DimBuild ClassRow} {combo : String × String}
    (h : keyInv ClassRow.ClassificationKey b) :
    keyInv ClassRow.ClassificationKey (rasffClassStep b combo) := by
  unfold rasffClassStep
  dsimp only
  split
  · exact h
  · exact keyInv_append h _ _ rfl

theorem keyInv_ukClassStep {b : DimBuild ClassRow} {at_ : String}
    (h : keyInv ClassRow.ClassificationKey b) :
    keyInv ClassRow.ClassificationKey (ukClassStep b at_) :=
  keyInv_addIfNew h rfl

theorem keyInv_finalizeNotif {b : DimBuild ClassRow}
    (h : keyInv ClassRow.ClassificationKey b) :
    keyInv ClassRow.ClassificationKey (finalizeNotif b) := by
  obtain ⟨h1, h2⟩ := h
  unfold finalizeNotif
  constructor
  · simpa [List.map_map] using h1
  · simpa using h2

theorem keyInv_class (f1 f2 : List (Option String)) (combos : List (String × String))
    (ua : List (Option String)) :
    keyInv ClassRow.ClassificationKey (create_dim_classification f1 f2 combos ua) :=
  keyInv_finalizeNotif
    (keyInv_foldl (fun _ _ hb => keyInv_ukClassStep hb) _ _
      (keyInv_foldl (fun _ _ hb => keyInv_rasffClassStep hb) _ _
        (keyInv_foldl (fun _ _ hb => keyInv_fsisClassStep hb) _ _
          (keyInv_foldl (fun _ _ hb => keyInv_fdaClassStep hb) _ _ (keyInv_dimInit _)))))

theorem keyInv_fdaProductStep {b : DimBuild ProductRow} {d : String}
    (h : keyInv ProductRow.ProductKey b) :
    keyInv ProductRow.ProductKey (fdaProductStep b d) :=
  keyInv_addIfNew h rfl

theorem keyInv_fsisProductStep {b : DimBuild ProductRow} {p : Option String × Option String}
    (h : keyInv ProductRow.ProductKey b) :
    keyInv ProductRow.ProductKey (fsisProductStep b p) :=
  keyInv_addIfNew h rfl

theorem keyInv_rasffProductStep {b : DimBuild ProductRow}
    {t : Option String × Option String × Option String}
    (h : keyInv ProductRow.ProductKey b) :
    keyInv ProductRow.ProductKey (rasffProductStep b t) := by
  unfold rasffProductStep
  dsimp only
  split
  · exact h
  · exact keyInv_addIfNew h rfl

theorem keyInv_ukProductStep {b : DimBuild ProductRow} {nc : Option String}
    (h : keyInv ProductRow.ProductKey b) :
    keyInv ProductRow.ProductKey (ukProductStep b nc) := by
  unfold ukProductStep
  dsimp only
  split
  · exact h
  · exact keyInv_addIfNew h rfl

theorem keyInv_product (pd : List (Option String))
    (fp : List (Option String × Option String))
    (rt : List (Option String × Option String × Option String))
    (un : List (Option String)) :
    keyInv ProductRow.ProductKey (create_dim_product pd fp rt un) :=
  keyInv_foldl (fun _ _ hb => keyInv_ukProductStep hb) _ _
    (keyInv_foldl (fun _ _ hb => keyInv_rasffProductStep hb) _ _
      (keyInv_foldl (fun _ _ hb => keyInv_fsisProductStep hb) _ _
        (keyInv_foldl (fun _ _ hb => keyInv_fdaProductStep hb) _ _ (keyInv_dimInit _))))

theorem keyInv_fdaCompanyStep {b : DimBuild CompanyRow}
    {q : Option String × Option String × Option String × Option String}
    (h : keyInv CompanyRow.CompanyKey b) :
    keyInv CompanyRow.CompanyKey (fdaCompanyStep b q) := by
  unfold fdaCompanyStep
  dsimp only
  split
  · exact h
  · exact keyInv_addIfNew h rfl

theorem keyInv_company
    (cq : List (Option String × Option String × Option String × Option String)) :
    keyInv CompanyRow.CompanyKey (create_dim_company cq) :=
  keyInv_foldl (fun _ _ hb => keyInv_fdaCompanyStep hb) _ _ (keyInv_dimInit _)

end FoodRecalls

namespace FoodRecalls

/-- C1, counterexample: with a single FDA state `CA` and no other sources,
the first data-driven natural key `USA|CA` receives surrogate key 1 — there
is no prior "unknown" sentinel entry, so data-driven keys do not start
at 2.  The emitted rows are the `CA` row (key 1) and the `USA|` default row
(key 2). -/
theorem c1_no_sentinel_counterexample :
    (geoMapOf (create_dim_geography [some "CA"] [] false [])).lookup "USA|CA" = some 1
    ∧ (geoRowsOf (create_dim_geography [some "CA"] [] false [])).map GeoRow.GeographyKey
        = [1, 2]
    ∧ (geoRowsOf (create_dim_geography [some "CA"] [] false [])).map GeoRow.State
        = [some "CA", none] := by
  decide

/-- C1 (amended): no sentinel entry is created in any of the four
dimensions; each builder assigns surrogate keys to its data-driven entries
starting at 1, sequentially in first-seen order (so fact-side lookup misses,
which default to key 1, coincide with the first data-driven entry). -/
theorem c1_keys_start_at_one
    (a : List (Option String)) (rc : List String) (uk : Bool) (cc : List (Option String))
    (f1 f2 : List (Option String)) (combos : List (String × String))
    (ua : List (Option String))
    (pd : List (Option String)) (fp : List (Option String × Option String))
    (rt : List (Option String × Option String × Option String)) (un : List (Option String))
    (cq : List (Option String × Option String × Option String × Option String)) :
    (geoRowsOf (create_dim_geography a rc uk cc)).map GeoRow.GeographyKey
      = List.range' 1 (geoRowsOf (create_dim_geography a rc uk cc)).length
    ∧ (create_dim_classification f1 f2 combos ua).rows.map ClassRow.ClassificationKey
      = List.range' 1 (create_dim_classification f1 f2 combos ua).rows.length
    ∧ (create_dim_product pd fp rt un).rows.map ProductRow.ProductKey
      = List.range' 1 (create_dim_product pd fp rt un).rows.length
    ∧ (create_dim_company cq).rows.map CompanyRow.CompanyKey
      = List.range' 1 (create_dim_company cq).rows.length := by
  refine ⟨?_, (keyInv_class f1 f2 combos ua).1, (keyInv_product pd fp rt un).1,
    (keyInv_company cq).1⟩
  cases hg : create_dim_geography a rc uk cc with
  | error u => simp [geoRowsOf]
  | ok b => simpa [geoRowsOf] using (keyInv_geo hg).1

end FoodRecalls

namespace FoodRecalls

/-- C2, counterexample: the claim fails in two ways.  `Hong kong` is not in
the alias table yet is returned unchanged (its first letter is upper case
and the string is not all upper case), not title-cased to `Hong Kong`; and
the whitespace-only input `" "` is truthy but strips to empty, so the
lookup misses and `country_str[0]` raises instead of returning. -/
theorem c2_harmonize_counterexample :
    harmonize_country_name (some "Hong kong") = Except.ok (some "Hong kong")
    ∧ titleS "Hong kong" = "Hong Kong"
    ∧ harmonize_country_name (some " ") = Except.error () := by
  decide

/-- C2 (amended): `harmonize_country_name` returns absent for a null or
empty input; raises (an `IndexError`) on a nonempty input that strips to
whitespace only; otherwise it returns the alias table's canonical name when
the stripped input upper-cases to a table key, returns the stripped input
unchanged when its first character is upper case and it is not entirely
upper case, and returns the stripped input title-cased in all remaining
cases. -/
theorem c2_harmonize_amended (c : String) :
    harmonize_country_name none = Except.ok none
    ∧ (c = "" → harmonize_country_name (some c) = Except.ok none)
    ∧ (c ≠ "" → trimS c = "" → harmonize_country_name (some c) = Except.error ())
    ∧ (∀ v, c ≠ "" → COUNTRY_NAME_MAP.lookup (upperS (trimS c)) = some v →
        harmonize_country_name (some c) = Except.ok (some v))
    ∧ (c ≠ "" → COUNTRY_NAME_MAP.lookup (upperS (trimS c)) = none →
        (headUpper (trimS c) && !pyIsUpper (trimS c)) = true →
        harmonize_country_name (some c) = Except.ok (some (trimS c)))
    ∧ (c ≠ "" → trimS c ≠ "" → COUNTRY_NAME_MAP.lookup (upperS (trimS c)) = none →
        (headUpper (trimS c) && !pyIsUpper (trimS c)) = false →
        harmonize_country_name (some c) = Except.ok (some (titleS (trimS c)))) := by
  refine ⟨rfl, ?_, ?_, ?_, ?_, ?_⟩
  · intro h0
    simp [harmonize_country_name, h0]
  · intro h0 htrim
    simp [harmonize_country_name, h0, htrim]
    decide
  · intro v h0 hlk
    simp [harmonize_country_name, h0, hlk]
  · intro h0 hlk hbranch
    have htrim : trimS c ≠ "" := by
      intro he
      rw [he] at hbranch
      simp [headUpper] at hbranch
    simp [harmonize_country_name, h0, hlk, htrim, hbranch]
  · intro h0 htrim hlk hbranch
    simp [harmonize_country_name, h0, hlk, htrim, hbranch]

/-- C2 witness: the amended theorem applied at the whitespace-only input
`" "` (the raising branch) and at `" madrid "` (the title-casing branch). -/
theorem c2_harmonize_amended_witness :
    harmonize_country_name (some " ") = Except.error ()
    ∧ harmonize_country_name (some " madrid x ") = Except.ok (some (titleS (trimS " madrid x "))) :=
  ⟨(c2_harmonize_amended " ").2.2.1 (by decide) (by decide),
   (c2_harmonize_amended " madrid x ").2.2.2.2.2 (by decide) (by decide) (by decide) (by decide)⟩

end FoodRecalls

namespace FoodRecalls

/-- A RASFF record whose notification type is `news item` and whose risk
decision is absent (so the combination risk is `unknown`). -/
def newsItemRasffRow : RasffRow :=
  { reference := none, date := none, notifying_country := none, origin := none,
    classification := some "news item", risk_decision := none, subject := none,
    substance := none, hazard_category := none, distribution := none,
    action_taken := none }

/-- C3, failing input: building the classification dimension over an FDA
class and the RASFF combination `(news item, unknown)` emits the dimension
row with surrogate key 2, but registers it in the key map under `news` (the
loop variable of the severity fallback scan shadows the composite key), so
the composite `RASFF|news item|unknown` is absent from the map and the fact
assembler's lookup of that record falls back to the default 1 instead of
the assigned key 2. -/
theorem c3_rasff_composite_shadowed :
    (create_dim_classification [some "Class I"] [] [("news item", "unknown")] []).map.lookup
        "RASFF|news item|unknown" = none
    ∧ (create_dim_classification [some "Class I"] [] [("news item", "unknown")] []).map.lookup
        "news" = some 2
    ∧ (create_dim_classification [some "Class I"] [] [("news item", "unknown")] []).rows.map
        (fun r => (r.ClassificationKey, r.OriginalClassification))
        = [(1, "Class I"), (2, "news item")]
    ∧ (rasffFactRow []
        (create_dim_classification [some "Class I"] [] [("news item", "unknown")] []).map
        [] 2 newsItemRasffRow).ClassificationKey = 1 := by
  decide

/-- C6: the absent reason and the empty reason both classify to
`(Other, Other, absent)`, with the third component absent rather than the
string `Other`. -/
theorem c6_blank_reason_other :
    classify_recall_reason none = ("Other", "Other", none)
    ∧ classify_recall_reason (some "") = ("Other", "Other", none) := by
  decide

/-- C8, counterexample: no dictionary keyword occurs in `Recalled due to
incorrect expiration date on label` (in particular neither `incorrect
label` nor `expiry date` is a substring), so the classifier does not return
the claimed `(Process Issue, Mislabeling, Mislabeling - Other)`. -/
theorem c8_expiration_label_counterexample :
    classify_recall_reason (some "Recalled due to incorrect expiration date on label")
      ≠ ("Process Issue", "Mislabeling", some "Mislabeling - Other") := by
  decide

/-- C8 (amended): `classify("Recalled due to incorrect expiration date on
label")` falls through every stage of the cascade and returns the default
`(Other, Other, Other)`. -/
theorem c8_expiration_label_amended :
    classify_recall_reason (some "Recalled due to incorrect expiration date on label")
      = ("Other", "Other", some "Other") := by
  decide

/-- C7: whenever some pathogen-dictionary keyword occurs in the lower-cased
reason text, the pathogen stage wins regardless of any later rule, and the
subgroup is the pathogen of the first matching keyword. -/
theorem c7_pathogen_stage_wins (s p : String) (hne : s ≠ "")
    (h : firstMatch PATHOGENS (lowerS s) = some p) :
    classify_recall_reason (some s)
      = ("Product Contaminant", "Biological Contamination", some p) := by
  simp only [classify_recall_reason, if_neg hne, h]

/-- C7 witness: the Listeria scenario of the claim, via the theorem. -/
theorem c7_pathogen_stage_wins_witness :
    firstMatch PATHOGENS (lowerS "Listeria monocytogenes detected in environmental sampling")
      = some "Listeria monocytogenes"
    ∧ classify_recall_reason (some "Listeria monocytogenes detected in environmental sampling")
      = ("Product Contaminant", "Biological Contamination", some "Listeria monocytogenes") :=
  ⟨by decide, c7_pathogen_stage_wins _ _ (by decide) (by decide)⟩

/-- When the bare substring `label` occurs in the text, the allergen gate
is satisfied, so the allergen scan accepts exactly the first matching
allergen keyword. -/
theorem allergenLoop_eq_firstMatch_of_label {t : String} (hl : hasSub t "label" = true) :
    ∀ dict, allergenLoop dict t = firstMatch dict t := by
  intro dict
  induction dict with
  | nil => rfl
  | cons p rest ih =>
    obtain ⟨kw, a⟩ := p
    unfold allergenLoop firstMatch
    by_cases hk : hasSub t kw
    · simp [hk, hl]
    · simp [hk, ih]

/-- C10: a reason text containing an allergen keyword, no pathogen keyword,
and the bare substring `label` is accepted as
`(Product Contaminant, Allergens, <allergen>)` — no undeclared-style
signal, labeling-issue signal or `allerg` substring is needed. -/
theorem c10_label_accepts_allergen (s a : String) (hne : s ≠ "")
    (hpath : firstMatch PATHOGENS (lowerS s) = none)
    (hall : firstMatch ALLERGENS (lowerS s) = some a)
    (hlabel : hasSub (lowerS s) "label" = true) :
    classify_recall_reason (some s) = ("Product Contaminant", "Allergens", some a) := by
  have hloop : allergenLoop ALLERGENS (lowerS s) = some a := by
    rw [allergenLoop_eq_firstMatch_of_label hlabel]
    exact hall
  simp only [classify_recall_reason, if_neg hne, hpath, hloop]

/-- C10 witness: `see updated cheese label` contains the allergen keyword
`cheese`, no pathogen keyword, and `label`, so it classifies as Milk. -/
theorem c10_label_accepts_allergen_witness :
    classify_recall_reason (some "see updated cheese label")
      = ("Product Contaminant", "Allergens", some "Milk") :=
  c10_label_accepts_allergen _ _ (by decide) (by decide) (by decide) (by decide)

end FoodRecalls

namespace FoodRecalls

/-- C5: for every reason input — absent, empty or any string — the
classifier produces exactly one triple whose `RecallCategory` component is
one of `Product Contaminant`, `Process Issue` and `Other` (and, being a
plain string, is never absent). -/
theorem c5_classification_total (r : Option String) :
    (classify_recall_reason r).1 = "Product Contaminant"
    ∨ (classify_recall_reason r).1 = "Process Issue"
    ∨ (classify_recall_reason r).1 = "Other" := by
  unfold classify_recall_reason
  rcases r with _ | rt
  · exact Or.inr (Or.inr rfl)
  · by_cases h0 : rt = ""
    · simp [h0]
    · simp only [if_neg h0]
      repeat' split
      all_goals first
        | exact Or.inl rfl
        | exact Or.inr (Or.inl rfl)
        | exact Or.inr (Or.inr rfl)

end FoodRecalls

namespace FoodRecalls

/-! ## Set-iteration order and surrogate-key determinism -/

theorem lookup_append_isSome (m1 m2 : List (String × Nat)) (k : String) :
    ((m1 ++ m2).lookup k).isSome = ((m1.lookup k).isSome || (m2.lookup k).isSome) := by
  induction m1 with
  | nil => simp
  | cons p t ih =>
    obtain ⟨k0, v0⟩ := p
    by_cases h : k == k0
    · simp [List.lookup_cons, h]
    · simp [List.lookup_cons, h, ih]

/-- A guarded insert registers exactly its own key on top of the existing
ones. -/
theorem isSome_lookup_addIfNew (b : DimBuild ρ) (key : String) (mk : Nat → ρ) (k : String) :
    ((addIfNew b key mk).map.lookup k).isSome
      = ((b.map.lookup k).isSome || k == key) := by
  unfold addIfNew
  split
  · rename_i hs
    by_cases hk : k == key
    · have : k = key := by simpa using hk
      subst this
      simp [hs, hk]
    · simp [hk]
  · rename_i hs
    show ((b.map ++ [(key, b.next)]).lookup k).isSome = _
    rw [lookup_append_isSome]
    by_cases hk : k == key
    · have hke : k = key := by simpa using hk
      subst hke
      simp [List.lookup_cons]
    · simp [List.lookup_cons, hk]

/-- The acceptance filter of the RASFF geography pass: nonempty, not the
literal `None`, no comma. -/
def geoAccept (c : String) : Bool :=
  !(c = "" || c = "None") && !(hasSub c ",")

theorem isSome_lookup_rasffCountryStep (b : DimBuild GeoRow) (c k : String) :
    ((rasffCountryStep b c).map.lookup k).isSome
      = ((b.map.lookup k).isSome || (k == c && geoAccept c)) := by
  unfold rasffCountryStep geoAccept
  split
  · rename_i h
    simp only [h]
    simp
  · rename_i h
    split
    · rename_i h2
      have hb : (decide (c = "") || decide (c = "None")) = false := by
        simpa using h
      simp [hb, h2]
    · rename_i h2
      rw [isSome_lookup_addIfNew]
      have hb : (decide (c = "") || decide (c = "None")) = false := by
        simpa using h
      have hb2 : hasSub c "," = false := by
        simpa using h2
      simp [hb, hb2]

/-- Which natural keys the RASFF geography pass registers depends only on
which countries occur in the enumeration (and the prior state), not on
their order. -/
theorem isSome_lookup_rasffGeoPass (l : List String) (b : DimBuild GeoRow) (k : String) :
    ((rasffGeoPass b l).map.lookup k).isSome
      = ((b.map.lookup k).isSome || l.any (fun c => k == c && geoAccept c)) := by
  induction l generalizing b with
  | nil => simp [rasffGeoPass]
  | cons c cs ih =>
    show ((rasffGeoPass (rasffCountryStep b c) cs).map.lookup k).isSome = _
    rw [ih, isSome_lookup_rasffCountryStep]
    simp [Bool.or_assoc]

/-- C9 (amended): the transform is a pure function of its inputs plus the
iteration order of the internal Python sets (RASFF countries and RASFF
classification combinations), so runs that also agree on those orders agree
on all tables; when only the set order differs, surrogate-key assignment
can change, but the RASFF geography pass still registers exactly the same
natural keys. -/
theorem c9_geo_membership_perm (b : DimBuild GeoRow) (l1 l2 : List String)
    (hperm : l1.Perm l2) (k : String) :
    ((rasffGeoPass b l1).map.lookup k).isSome
      = ((rasffGeoPass b l2).map.lookup k).isSome := by
  rw [isSome_lookup_rasffGeoPass, isSome_lookup_rasffGeoPass]
  have hany : l1.any (fun c => k == c && geoAccept c)
      = l2.any (fun c => k == c && geoAccept c) := by
    rw [List.any_eq, List.any_eq]
    exact decide_eq_decide.mpr
      ⟨fun ⟨x, hx, hp⟩ => ⟨x, hperm.mem_iff.mp hx, hp⟩,
       fun ⟨x, hx, hp⟩ => ⟨x, hperm.mem_iff.mpr hx, hp⟩⟩
  rw [hany]

/-- C9 witness: the amended theorem applied to the two enumeration orders
of the country set `{France, Spain}` at the key `France`. -/
theorem c9_geo_membership_perm_witness :
    ((rasffGeoPass (dimInit GeoRow) ["France", "Spain"]).map.lookup "France").isSome
      = ((rasffGeoPass (dimInit GeoRow) ["Spain", "France"]).map.lookup "France").isSome :=
  c9_geo_membership_perm (dimInit GeoRow) _ _ (List.Perm.swap "Spain" "France" []) "France"

/-- C9, counterexample: the two orders in which the Python interpreter may
iterate the set `{France, Spain}` (a choice the input data does not
determine) yield different surrogate-key maps: `France` gets key 2 in one
run and key 3 in the other, so two runs on identical inputs need not
produce identical key assignments. -/
theorem c9_set_order_counterexample :
    List.Perm ["France", "Spain"] ["Spain", "France"]
    ∧ (geoMapOf (create_dim_geography [] ["France", "Spain"] false [])).lookup "France"
        = some 2
    ∧ (geoMapOf (create_dim_geography [] ["Spain", "France"] false [])).lookup "France"
        = some 3
    ∧ geoMapOf (create_dim_geography [] ["France", "Spain"] false [])
        ≠ geoMapOf (create_dim_geography [] ["Spain", "France"] false []) := by
  refine ⟨List.Perm.swap "Spain" "France" [], ?_, ?_, ?_⟩ <;> decide

end FoodRecalls

namespace FoodRecalls

/-- An FDA record whose dates fail every format and whose country field is
a truthy whitespace-only string. -/
def badDateFdaRow : FdaRow :=
  { recall_number := none, event_id := none,
    recall_initiation_date := some "13/13/2024", report_date := none, state := none,
    country := some " ", classification := none, product_description := none,
    recalling_firm := none, reason_for_recall := none, distribution_pattern := none }

/-- An FSIS record whose date fails every format. -/
def fsisBadDateRow : FsisRow :=
  { recall_number := none, open_date := some "not a date", class_col := none,
    product := none, problem_type := none }

/-- C4, counterexample: on this record all four date formats fail, yet no
fact row with absent date is produced — the record's whitespace-only
country field makes the geography harmonizer raise, so FDA processing
aborts instead of emitting the row. -/
theorem c4_failing_record_counterexample :
    parse_date badDateFdaRow.recall_initiation_date = none
    ∧ parse_date badDateFdaRow.report_date = none
    ∧ fdaFactRow [] [] [] [] 1 badDateFdaRow = Except.error () := by
  decide

/-- C4 (amended): `parse_date` tries `YYYYMMDD`, `YYYY-MM-DD`, `MM/DD/YYYY`
and `DD/MM/YYYY` in exactly that order on the first ten characters and the
first successful parse wins (so the ambiguous `01/02/2024` is read as
month 1, day 2); when every format fails, an FDA record still yields a fact
row with `RecallDate` and `DateKey` absent provided its processing
completes (a truthy whitespace-only country field makes the harmonizer
raise instead, see the counterexample), and an FSIS record always yields
such a row.  (RASFF and UK FSA dates are parsed at load time, outside this
path.) -/
theorem c4_date_resolution_amended :
    (∀ (s : String) (d : PyDate),
        runFmt fmtYmd (s.data.take 10) = some d → parse_date (some s) = some d)
    ∧ (∀ (s : String) (d : PyDate), runFmt fmtYmd (s.data.take 10) = none →
        runFmt fmtYmdDash (s.data.take 10) = some d → parse_date (some s) = some d)
    ∧ (∀ (s : String) (d : PyDate), runFmt fmtYmd (s.data.take 10) = none →
        runFmt fmtYmdDash (s.data.take 10) = none →
        runFmt fmtMdy (s.data.take 10) = some d → parse_date (some s) = some d)
    ∧ (∀ (s : String), runFmt fmtYmd (s.data.take 10) = none →
        runFmt fmtYmdDash (s.data.take 10) = none →
        runFmt fmtMdy (s.data.take 10) = none →
        parse_date (some s) = runFmt fmtDmy (s.data.take 10))
    ∧ parse_date (some "01/02/2024") = some ⟨2024, 1, 2⟩
    ∧ (∀ gm cm pm com rk row r, fdaFactRow gm cm pm com rk row = Except.ok r →
        parse_date row.recall_initiation_date = none →
        parse_date row.report_date = none →
        r.RecallDate = none ∧ r.DateKey = none)
    ∧ (∀ gm cm pm rk row, parse_date row.open_date = none →
        (fsisFactRow gm cm pm rk row).RecallDate = none
        ∧ (fsisFactRow gm cm pm rk row).DateKey = none) := by
  refine ⟨?_, ?_, ?_, ?_, by decide, ?_, ?_⟩
  · intro s d h1
    simp [parse_date, h1]
  · intro s d h1 h2
    simp [parse_date, h1, h2]
  · intro s d h1 h2 h3
    simp [parse_date, h1, h2, h3]
  · intro s h1 h2 h3
    simp [parse_date, h1, h2, h3]
  · intro gm cm pm com rk row r hok h1 h2
    unfold fdaFactRow at hok
    simp only [h1, h2] at hok
    split at hok
    · simp at hok
    · rename_i oc heq
      cases hok
      exact ⟨rfl, rfl⟩
  · intro gm cm pm rk row h1
    unfold fsisFactRow
    simp [h1]

/-- C4 witness: the amended theorem applied at the ambiguous date (third
format wins) and at an FSIS record whose date fails all formats. -/
theorem c4_date_resolution_amended_witness :
    parse_date (some "01/02/2024") = some ⟨2024, 1, 2⟩
    ∧ ((fsisFactRow [] [] [] 1 fsisBadDateRow).RecallDate = none
       ∧ (fsisFactRow [] [] [] 1 fsisBadDateRow).DateKey = none) :=
  ⟨c4_date_resolution_amended.2.2.1 "01/02/2024" ⟨2024, 1, 2⟩ (by decide) (by decide) (by decide),
   c4_date_resolution_amended.2.2.2.2.2.2 [] [] [] 1 fsisBadDateRow (by decide)⟩

end FoodRecalls
